import Mathlib

/-!
Verification development for the MeshCore Home Assistant integration's
configuration flow (`custom_components/meshcore/config_flow.py`).

The Python code is shallowly embedded as pure Lean functions.  Outcomes of
calls into the external mesh-device library (`meshcore`) and the transport
layer (`MeshCoreAPI`) are supplied through explicit environment records, so
every embedded function is a total, executable function of its inputs.
Python dictionary payloads are modelled as association lists, Python's
`None`-able dictionary lookups as `Option`, and Python string slicing and
`rfind` are modelled with their exact negative-index semantics.
-/

namespace MeshCore

/-- Event kinds from `meshcore.events.EventType` that the config flow
inspects (`ERROR`, `LOGIN_SUCCESS`, `CONTACT_MSG_RECV`), plus `OK` for a
non-error command result and `SELF_INFO` for the node identity response. -/
inductive EventType
  | ERROR
  | OK
  | LOGIN_SUCCESS
  | CONTACT_MSG_RECV
  | SELF_INFO
deriving DecidableEq

/-- A Python dict payload, modelled as an association list of strings. -/
abbrev Payload := List (String × String)

/-- Python `payload.get(k)`: first binding of `k`, or `None`. -/
def payloadGet (p : Payload) (k : String) : Option String :=
  (p.find? (fun kv => kv.1 == k)).map (fun kv => kv.2)

/-- A decoded event: a kind plus a kind-specific payload. -/
structure Event where
  type : EventType
  payload : Payload
deriving DecidableEq

/-- A cached contact dict as read by the config flow: `adv_name`,
`public_key` (hex-encoded, `""` when absent) and the numeric `type` tag
(`None` when absent). -/
structure Contact where
  adv_name : String := ""
  public_key : String := ""
  type : Option Nat := none
deriving DecidableEq

/-- Node type tag for a repeater, per the source comment
"Check for repeater (2) or room server (3) node types". -/
def NodeType.REPEATER : Nat := 2

/-- Node type tag for a room server (see `NodeType.REPEATER`). -/
def NodeType.ROOM_SERVER : Nat := 3

/-- A repeater subscription record as appended by
`async_step_add_repeater`.  `pubkey_prefix` and `firmware_version` are
`Option`s because stored records are Python dicts whose fields may be
missing (`r.get("pubkey_prefix")` can return `None`), and because the
version text itself comes from a `payload.get("text")` lookup. -/
structure Subscription where
  name : String := ""
  pubkey_prefix : Option String := none
  firmware_version : Option String := none
  password : String := ""
  update_interval : Nat := 0
  enabled : Bool := false
deriving DecidableEq

/-- The `pubkey_prefix` field of a stored subscription record,
i.e. `r.get("pubkey_prefix")`. -/
def subPfx (r : Subscription) : Option String := Subscription.pubkey_prefix r

/-- Python `s[:n]` on a string (for `n ≥ 0`). -/
def pyTake (s : String) (n : Nat) : String := String.mk (s.data.take n)

/-- Python `s.rfind(c)`: index of the last occurrence of `c`, or `-1`. -/
def pyRFind (s : String) (c : Char) : Int :=
  match s.data.reverse.findIdx? (fun a => a == c) with
  | some i => ((s.data.length - 1 - i : Nat) : Int)
  | none => -1

/-- Normalize a (possibly negative) Python slice index for length `n`. -/
def pyNormIdx (n : Nat) (i : Int) : Nat :=
  if i < 0 then Int.toNat (i + n) else min (Int.toNat i) n

/-- Python `s[a:b]` with full negative-index slice semantics. -/
def pySlice (s : String) (a b : Int) : String :=
  let lo := pyNormIdx s.data.length a
  let hi := pyNormIdx s.data.length b
  String.mk ((s.data.drop lo).take (hi - lo))

/-- The prefix-extraction idiom used on `"Name (prefix)"` display strings:
`s[s.rfind("(") + 1 : s.rfind(")")]`. -/
def extractParen (s : String) : String :=
  pySlice s (pyRFind s '(' + 1) (pyRFind s ')')

/-- The name-extraction idiom of `async_step_add_repeater`:
`s[:start - 1].strip()` where `start = s.rfind("(") + 1`. -/
def extractNameBefore (s : String) : String :=
  (pySlice s 0 (pyRFind s '(')).trim

/-- Embedding of `OptionsFlowHandler._get_repeater_contacts`: keep contacts that have a
non-empty `adv_name`, a repeater/room-server type tag and a non-empty key,
producing `(public_key[:12], adv_name)` pairs. -/
def getRepeaterContacts (contacts : List Contact) : List (String × String) :=
  contacts.filterMap (fun contact =>
    if contact.adv_name = "" then none
    else if contact.type = some NodeType.REPEATER ∨ contact.type = some NodeType.ROOM_SERVER then
      let pfx := if contact.public_key = "" then "" else pyTake contact.public_key 12
      if pfx = "" then none else some (pfx, contact.adv_name)
    else none)

/-- Python `s.startswith(pre)`: `pre`'s characters are an initial
segment of `s`'s. -/
def pyStartsWith (s pre : String) : Bool := List.isPrefixOf pre.data s.data

/-- The per-record keep-condition of the remove branch of
`async_step_init`: keep `r` unless
`r.get("pubkey_prefix") and r.get("pubkey_prefix").startswith(toRemove)`
is truthy (Python `None` and `""` are falsy). -/
def keepOnRemove (toRemove : String) (r : Subscription) : Bool :=
  ! (match subPfx r with
     | none => false
     | some s => s != "" && pyStartsWith s toRemove)

/-- The list comprehension of the remove branch of `async_step_init`. -/
def removeSubs (subs : List Subscription) (toRemove : String) : List Subscription :=
  subs.filter (keepOnRemove toRemove)

/-- The whole remove branch of `async_step_init` for a selected
`"Name (prefix)"` display string: extract the prefix between the last
parentheses, then drop the matching records. -/
def removeRepeaterStep (subs : List Subscription) (selected : String) : List Subscription :=
  removeSubs subs (extractParen selected)

/-- The side effects `async_step_add_repeater` performs against the
device library, recorded in order. -/
inductive Action
  | sendLogin (contact : Contact) (password : String)
  | sendCmd (contact : Contact) (cmd : String)
  | waitFor (t : EventType) (flt : Option Payload) (timeout : Nat)
deriving DecidableEq

/-- Outcomes of `async_step_add_repeater` (each error constructor is one
of its `errors["base"]` early returns; `added` is the success path). -/
inductive AddOutcome
  | alreadyConfigured
  | contactNotFound
  | loginSendFailed
  | loginTimedOut
  | loginRejected
  | added (sub : Subscription)
deriving DecidableEq

/-- Result of one run of `async_step_add_repeater`: the outcome, the
subscription list afterwards, and the trace of device-library calls. -/
structure AddResult where
  outcome : AddOutcome
  subs : List Subscription
  trace : List Action
deriving DecidableEq

/-- Oracle for the external `meshcore` device-library calls made by
`async_step_add_repeater`; each field returns what the corresponding
library call would return. -/
structure MeshEnv where
  get_contact_by_key_prefix : String → Option Contact
  send_login : Contact → String → Event
  send_cmd : Contact → String → Event
  wait_for_event : EventType → Option Payload → Nat → Option Event

/-- Embedding of `OptionsFlowHandler.async_step_add_repeater`, from the point where a
repeater has been selected: extract the prefix and name from the selected
display string, reject an already-subscribed prefix, resolve the contact,
send the login and await `LOGIN_SUCCESS` with a 10 s bound, then probe the
version (`"ver"` command, `CONTACT_MSG_RECV` awaited with a 15 s bound and
a `pubkey_prefix` filter) and append the new subscription record. -/
def addRepeaterStep (env : MeshEnv) (subs : List Subscription)
    (selected password : String) (update_interval : Nat) : AddResult :=
  let pfx := extractParen selected
  let repeater_name := extractNameBefore selected
  if some pfx ∈ subs.map subPfx then
    { outcome := .alreadyConfigured, subs := subs, trace := [] }
  else
    match env.get_contact_by_key_prefix pfx with
    | none => { outcome := .contactNotFound, subs := subs, trace := [] }
    | some contact =>
      let send_result := env.send_login contact password
      if send_result.type = EventType.ERROR then
        { outcome := .loginSendFailed, subs := subs,
          trace := [.sendLogin contact password] }
      else
        match env.wait_for_event EventType.LOGIN_SUCCESS none 10 with
        | none =>
          { outcome := .loginTimedOut, subs := subs,
            trace := [.sendLogin contact password,
                      .waitFor EventType.LOGIN_SUCCESS none 10] }
        | some result =>
          if result.type = EventType.ERROR then
            { outcome := .loginRejected, subs := subs,
              trace := [.sendLogin contact password,
                        .waitFor EventType.LOGIN_SUCCESS none 10] }
          else
            -- the version-query send result is only logged by the source,
            -- never branched on
            let _verSend := env.send_cmd contact "ver"
            let flt : Payload := [("pubkey_prefix", pyTake contact.public_key 12)]
            let msg := env.wait_for_event EventType.CONTACT_MSG_RECV (some flt) 15
            let ver : Option String :=
              match msg with
              | none => some "Unknown"
              | some m =>
                if m.type = EventType.ERROR then some "Unknown"
                else if m.type = EventType.CONTACT_MSG_RECV then payloadGet m.payload "text"
                else some "Unknown"
            let newSub : Subscription :=
              { name := repeater_name, pubkey_prefix := some pfx,
                firmware_version := ver, password := password,
                update_interval := update_interval, enabled := true }
            { outcome := .added newSub, subs := subs ++ [newSub],
              trace := [.sendLogin contact password,
                        .waitFor EventType.LOGIN_SUCCESS none 10,
                        .sendCmd contact "ver",
                        .waitFor EventType.CONTACT_MSG_RECV (some flt) 15] }

/-- Outcome of the transport-level `api.connect()` step of
`validate_common`: the `asyncio.wait_for` wrapper timed out, the call
returned falsy (or no mesh-core handle was created), or it succeeded. -/
inductive ConnectOutcome
  | timedOut
  | failed
  | ok
deriving DecidableEq

/-- Oracle for the calls `validate_common` makes: the connect outcome and
the node-info event returned by `send_appstart` (when reached). -/
structure ValidateEnv where
  connect : ConnectOutcome
  appstart : Event

/-- The information dict `validate_common` returns on success. -/
structure ValidateInfo where
  title : String
  name : String
  pubkey : String
deriving DecidableEq

/-- Result value of `validate_common`: either the raised `CannotConnect`
(with its final message, after the generic exception handler re-wraps
inner raises) or the success dict. -/
inductive ValidateRes
  | cannotConnect (msg : String)
  | okInfo (info : ValidateInfo)
deriving DecidableEq

/-- Side effects of `validate_common` against the transport, in order.
`disconnect` is recorded only where the source calls `api.disconnect()`. -/
inductive VAction
  | connect
  | sendAppstart
  | disconnect
deriving DecidableEq

/-- Result of `validate_common`: outcome plus its transport-call trace. -/
structure ValidateResult where
  res : ValidateRes
  actions : List VAction
deriving DecidableEq

/-- Embedding of `validate_common`: connect with timeout, probe node info via
`send_appstart`, raise `CannotConnect` on timeout, falsy connect or an
`ERROR`-kind node-info event (the latter two re-wrapped by the generic
handler), and disconnect only on the success path. -/
def validate_common (env : ValidateEnv) : ValidateResult :=
  match env.connect with
  | .timedOut =>
    { res := .cannotConnect "Connection timed out", actions := [.connect] }
  | .failed =>
    { res := .cannotConnect "Failed to connect: Device connection failed",
      actions := [.connect] }
  | .ok =>
    let node_info := env.appstart
    if node_info.type = EventType.ERROR then
      { res := .cannotConnect "Failed to connect: Failed to get node info",
        actions := [.connect, .sendAppstart] }
    else
      let device_name := (payloadGet node_info.payload "name").getD "Unknown"
      let public_key := (payloadGet node_info.payload "public_key").getD ""
      { res := .okInfo { title := "MeshCore Node " ++ device_name,
                         name := device_name, pubkey := public_key },
        actions := [.connect, .sendAppstart, .disconnect] }

/-- An event paired with its arrival time (seconds since the request). -/
structure TimedEvent where
  time : Nat
  ev : Event
deriving DecidableEq

/-- Modelled from the spec: the correlated-waiter primitive
`await(P, T)` of the external device library (not under `src/`), which
"returns a matching event strictly before T elapses, or Timeout at/after
T, never before without a match": the first event of the inbound stream
that matches the predicate and arrives strictly before `T`, else `none`
(timeout). -/
def awaitEvent (stream : List TimedEvent) (P : Event → Bool) (T : Nat) : Option Event :=
  (stream.find? (fun te => decide (te.time < T) && P te.ev)).map (fun te => te.ev)

/-- Modelled from the spec: `send_appstart` of the external
`MeshCoreAPI`/device library (not under `src/`), which awaits the node's
identity (`SELF_INFO`) response within a bounded timeout and surfaces a
timeout as an `ERROR`-kind result. -/
def send_appstartModelled (stream : List TimedEvent) (T : Nat) : Event :=
  match awaitEvent stream (fun e => e.type == EventType.SELF_INFO) T with
  | some e => e
  | none => { type := EventType.ERROR, payload := [("error", "timeout")] }

/-- The embedded `validate_common` composed with the spec-modelled bounded identity
await. -/
def validate_commonOnStream (c : ConnectOutcome) (stream : List TimedEvent)
    (T : Nat) : ValidateResult :=
  validate_common { connect := c, appstart := send_appstartModelled stream T }

/-- Lower-case hex digit for a nibble. -/
def hexDigit (n : Nat) : Char :=
  if n < 10 then Char.ofNat (48 + n) else Char.ofNat (87 + n)

/-- The two hex characters encoding one byte. -/
def byteToHex (b : Nat) : List Char := [hexDigit (b / 16 % 16), hexDigit (b % 16)]

/-- Hex encoding of a byte sequence (as Python `bytes.hex()` produces the
`public_key` strings the contact cache stores). -/
def hexEncode (bytes : List Nat) : String :=
  String.mk (List.flatten (bytes.map byteToHex))

/-- The spec's reading of the key prefix ("first 12 bytes of a public
key, hex-encoded"), stated from the spec's words for comparison with the
code's prefix. -/
def specKeyPfx (keyBytes : List Nat) : String := hexEncode (keyBytes.take 12)

/-- The code's key prefix: `public_key[:12]` on the stored hex string
(lines 419 and 535 of `config_flow.py`). -/
def codeKeyPfx (public_key : String) : String := pyTake public_key 12

/-- Does a stored record's `pubkey_prefix` count as missing or empty
(Python-falsy)? -/
def blankPfx (r : Subscription) : Bool := (subPfx r).getD "" == ""

/-- The subscription-list invariant: no two records carry the same
`pubkey_prefix` value. -/
abbrev uniquePrefixes (subs : List Subscription) : Prop := (subs.map subPfx).Nodup

/-- A non-error command result, as returned by a successful library send. -/
def evOK : Event := { type := EventType.OK, payload := [] }

/-- An `ERROR`-kind result event. -/
def evERR : Event := { type := EventType.ERROR, payload := [] }

/-- A `LOGIN_SUCCESS` event. -/
def evLoginOk : Event := { type := EventType.LOGIN_SUCCESS, payload := [] }

/-- A `CONTACT_MSG_RECV` event carrying version text `"v9.9"`. -/
def evVer : Event := { type := EventType.CONTACT_MSG_RECV, payload := [("text", "v9.9")] }

/-- An 8-byte public key used by concrete test environments. -/
def kW : List Nat := [0x10, 0x11, 0x12, 0x13, 0x14, 0x15, 0x16, 0x17]

/-- A 32-byte public key (bytes `0x10`..`0x2f`). -/
def k32 : List Nat :=
  [0x10, 0x11, 0x12, 0x13, 0x14, 0x15, 0x16, 0x17,
   0x18, 0x19, 0x1a, 0x1b, 0x1c, 0x1d, 0x1e, 0x1f,
   0x20, 0x21, 0x22, 0x23, 0x24, 0x25, 0x26, 0x27,
   0x28, 0x29, 0x2a, 0x2b, 0x2c, 0x2d, 0x2e, 0x2f]

/-- A cached repeater contact whose stored key is the hex encoding of
`kW`. -/
def contactW : Contact :=
  { adv_name := "Hilltop", public_key := "1011121314151617", type := some 2 }

/-- Environment in which no library call succeeds: no contact resolves
and every wait times out. -/
def envNone : MeshEnv :=
  { get_contact_by_key_prefix := fun _ => none,
    send_login := fun _ _ => evOK,
    send_cmd := fun _ _ => evOK,
    wait_for_event := fun _ _ _ => none }

/-- Environment in which the contact resolves and the login send
succeeds, but every wait times out. -/
def envLoginTimeout : MeshEnv :=
  { get_contact_by_key_prefix := fun _ => some contactW,
    send_login := fun _ _ => evOK,
    send_cmd := fun _ _ => evOK,
    wait_for_event := fun _ _ _ => none }

/-- Environment in which login succeeds but the version-probe wait times
out. -/
def envVerTimeout : MeshEnv :=
  { get_contact_by_key_prefix := fun _ => some contactW,
    send_login := fun _ _ => evOK,
    send_cmd := fun _ _ => evOK,
    wait_for_event := fun t _ _ =>
      if t = EventType.LOGIN_SUCCESS then some evLoginOk else none }

/-- Environment in which login succeeds, the version-query send returns
an `ERROR`-kind result, yet a version message still arrives. -/
def envC4 : MeshEnv :=
  { get_contact_by_key_prefix := fun _ => some contactW,
    send_login := fun _ _ => evOK,
    send_cmd := fun _ _ => evERR,
    wait_for_event := fun t _ _ =>
      if t = EventType.LOGIN_SUCCESS then some evLoginOk else some evVer }

/-- A subscribed repeater record with a 12-character key prefix. -/
def subW : Subscription :=
  { name := "R", pubkey_prefix := some "abc123def456", enabled := true }

/-- A subscribed repeater record whose prefix is `"aabbccddeeff"`. -/
def subA : Subscription :=
  { name := "A", pubkey_prefix := some "aabbccddeeff", enabled := true }

/-- A subscribed repeater record whose prefix strictly extends
`subA`'s. -/
def subB : Subscription :=
  { name := "B", pubkey_prefix := some "aabbccddeeff99", enabled := true }

/-- A stored record with no `pubkey_prefix` field at all. -/
def subNoPfx : Subscription := { name := "legacy" }

theorem keepOnRemove_eq_true (x : String) (r : Subscription) :
    keepOnRemove x r = true ↔
      ¬ ∃ s, subPfx r = some s ∧ s ≠ "" ∧ pyStartsWith s x = true := by
  unfold keepOnRemove
  cases h : subPfx r with
  | none => simp [h]
  | some s =>
    simp only [h, Bool.not_eq_true', Bool.and_eq_false_iff, bne_eq_false_iff_eq,
      Option.some.injEq]
    constructor
    · rintro (rfl | hs) ⟨t, rfl, ht, hst⟩
      · exact ht rfl
      · rw [hs] at hst
        exact Bool.false_ne_true hst
    · intro hno
      by_cases hs : s = ""
      · exact Or.inl hs
      · refine Or.inr ?_
        by_cases hst : pyStartsWith s x = true
        · exact absurd ⟨s, rfl, hs, hst⟩ hno
        · simpa using hst

theorem blankPfx_keepOnRemove (x : String) (r : Subscription)
    (h : blankPfx r = true) : keepOnRemove x r = true := by
  unfold blankPfx at h
  unfold keepOnRemove
  cases hp : subPfx r with
  | none => simp
  | some s =>
    rw [hp] at h
    simp only [Option.getD_some, beq_iff_eq] at h
    simp [h]

theorem flatten_byteToHex_take (bs : List Nat) :
    ∀ n, (List.flatten (bs.map byteToHex)).take (2 * n) =
      List.flatten ((bs.take n).map byteToHex) := by
  induction bs with
  | nil => intro n; simp
  | cons b tl ih =>
    intro n
    cases n with
    | zero => simp
    | succ m =>
      have h2 : 2 * (m + 1) = 2 * m + 1 + 1 := by ring
      simp only [List.map_cons, List.flatten_cons, byteToHex, List.take_succ_cons,
        List.cons_append, List.nil_append, h2, ih m]

theorem pyTake_hexEncode (k : List Nat) :
    pyTake (hexEncode k) 12 = hexEncode (k.take 6) := by
  unfold pyTake hexEncode
  exact congrArg String.mk (flatten_byteToHex_take k 6)

theorem codeKeyPfx_hexEncode (k : List Nat) :
    codeKeyPfx (hexEncode k) = hexEncode (k.take 6) := pyTake_hexEncode k

theorem hexEncode_ne_empty (k : List Nat) (hk : k ≠ []) : hexEncode k ≠ "" := by
  cases k with
  | nil => exact absurd rfl hk
  | cons b tl =>
    intro h
    have hd := congrArg String.data h
    simp [hexEncode, byteToHex] at hd

/-- C1: for every subscription list and every selected repeater whose
extracted pubkey prefix already appears among the list's stored prefix
values, `async_step_add_repeater` fails with the already-configured
error, performs no device-library call at all (in particular it sends no
login command: the trace is empty), and returns the subscription list
unchanged — same length and same contents. -/
theorem c1_already_configured_rejected (env : MeshEnv) (subs : List Subscription)
    (selected password : String) (ui : Nat)
    (h : some (extractParen selected) ∈ subs.map subPfx) :
    addRepeaterStep env subs selected password ui =
      { outcome := .alreadyConfigured, subs := subs, trace := [] } := by
  simp [addRepeaterStep, h]

/-- Witness for C1 at a concrete list already containing the selected
prefix `"abc123def456"`. -/
theorem c1_witness :
    addRepeaterStep envNone [subW] "R (abc123def456)" "pw" 60 =
      { outcome := .alreadyConfigured, subs := [subW], trace := [] } :=
  c1_already_configured_rejected envNone [subW] "R (abc123def456)" "pw" 60 (by decide)

/-- C9 (amended): if the extracted prefix is not already subscribed and
no cached contact matches it, `async_step_add_repeater` fails with the
contact-not-found error, with an empty trace (so before any login
command), leaving the subscription list unchanged. -/
theorem c9_contact_not_found (env : MeshEnv) (subs : List Subscription)
    (selected password : String) (ui : Nat)
    (hfresh : some (extractParen selected) ∉ subs.map subPfx)
    (hc : env.get_contact_by_key_prefix (extractParen selected) = none) :
    addRepeaterStep env subs selected password ui =
      { outcome := .contactNotFound, subs := subs, trace := [] } := by
  simp [addRepeaterStep, hfresh, hc]

/-- Witness for C9 with an empty subscription list and an environment
with no cached contacts. -/
theorem c9_witness :
    addRepeaterStep envNone [] "R (aabbccddeeff)" "pw" 60 =
      { outcome := .contactNotFound, subs := [], trace := [] } :=
  c9_contact_not_found envNone [] "R (aabbccddeeff)" "pw" 60 (by decide) rfl

/-- C9 counterexample to the claim as stated: when no cached contact
matches the extracted prefix but the prefix is already subscribed, the
code reports the already-configured error, not contact-not-found (the
uniqueness check at lines 491-495 runs before the contact lookup at
lines 500-505). -/
theorem c9_counterexample :
    (addRepeaterStep envNone [subA] "A (aabbccddeeff)" "pw" 60).outcome =
      AddOutcome.alreadyConfigured ∧
    AddOutcome.alreadyConfigured ≠ AddOutcome.contactNotFound ∧
    envNone.get_contact_by_key_prefix (extractParen "A (aabbccddeeff)") = none := by
  decide

/-- C2: once the login command has been sent successfully (non-error
send result), the code awaits `LOGIN_SUCCESS` with the 10-second bound
(the trace records that wait); if that wait times out, or hands back an
`ERROR`-kind event, the step fails as a login failure and appends no
subscription record. -/
theorem c2_login_wait_timeout_or_error (env : MeshEnv) (subs : List Subscription)
    (selected password : String) (ui : Nat) (contact : Contact)
    (hfresh : some (extractParen selected) ∉ subs.map subPfx)
    (hc : env.get_contact_by_key_prefix (extractParen selected) = some contact)
    (hsend : (env.send_login contact password).type ≠ EventType.ERROR)
    (hwait : env.wait_for_event EventType.LOGIN_SUCCESS none 10 = none ∨
             ∃ e, env.wait_for_event EventType.LOGIN_SUCCESS none 10 = some e ∧
                  e.type = EventType.ERROR) :
    ((addRepeaterStep env subs selected password ui).outcome = AddOutcome.loginTimedOut ∨
     (addRepeaterStep env subs selected password ui).outcome = AddOutcome.loginRejected) ∧
    (addRepeaterStep env subs selected password ui).subs = subs ∧
    Action.waitFor EventType.LOGIN_SUCCESS none 10 ∈
      (addRepeaterStep env subs selected password ui).trace := by
  rcases hwait with hw | ⟨e, hw, he⟩
  · simp [addRepeaterStep, hfresh, hc, hsend, hw]
  · simp [addRepeaterStep, hfresh, hc, hsend, hw, he]

/-- Witness for C2: contact resolves, login send succeeds, and the
`LOGIN_SUCCESS` wait times out. -/
theorem c2_witness :
    ((addRepeaterStep envLoginTimeout [] "Hilltop (101112131415)" "secret" 60).outcome =
        AddOutcome.loginTimedOut ∨
     (addRepeaterStep envLoginTimeout [] "Hilltop (101112131415)" "secret" 60).outcome =
        AddOutcome.loginRejected) ∧
    (addRepeaterStep envLoginTimeout [] "Hilltop (101112131415)" "secret" 60).subs = [] ∧
    Action.waitFor EventType.LOGIN_SUCCESS none 10 ∈
      (addRepeaterStep envLoginTimeout [] "Hilltop (101112131415)" "secret" 60).trace :=
  c2_login_wait_timeout_or_error envLoginTimeout [] "Hilltop (101112131415)" "secret" 60
    contactW (by decide) rfl (by decide) (Or.inl rfl)

/-- C5 (amended): for every subscription list and removal selection
naming a subscribed repeater, the remove operation yields a sublist of
the original list (so every kept record is kept by identity and in
order), and it excludes exactly the records whose present, non-empty
`pubkey_prefix` starts with the selected prefix — not only the record
whose prefix equals it. -/
theorem c5_remove_by_startswith (subs : List Subscription) (selected : String)
    (_hnamed : ∃ r ∈ subs, subPfx r = some (extractParen selected)) :
    List.Sublist (removeRepeaterStep subs selected) subs ∧
    ∀ r, r ∈ removeRepeaterStep subs selected ↔
      r ∈ subs ∧ ¬ ∃ s, subPfx r = some s ∧ s ≠ "" ∧
        pyStartsWith s (extractParen selected) = true := by
  constructor
  · exact List.filter_sublist subs
  · intro r
    rw [removeRepeaterStep, removeSubs, List.mem_filter, keepOnRemove_eq_true]

/-- Witness for C5 on a one-element list whose record the selection
names. -/
theorem c5_witness :
    List.Sublist (removeRepeaterStep [subA] "A (aabbccddeeff)") [subA] ∧
    (subA ∈ removeRepeaterStep [subA] "A (aabbccddeeff)" ↔
      subA ∈ [subA] ∧ ¬ ∃ s, subPfx subA = some s ∧ s ≠ "" ∧
        pyStartsWith s (extractParen "A (aabbccddeeff)") = true) :=
  ⟨(c5_remove_by_startswith [subA] "A (aabbccddeeff)" ⟨subA, by decide, by decide⟩).1,
   (c5_remove_by_startswith [subA] "A (aabbccddeeff)" ⟨subA, by decide, by decide⟩).2 subA⟩

/-- C5 counterexample to the claim as stated: removing `"A"` (prefix
`"aabbccddeeff"`, which names the subscribed record `subA`) also deletes
`subB`, whose distinct prefix `"aabbccddeeff99"` merely starts with the
selected prefix — so a non-matching record is not "contained unchanged"
in the result. -/
theorem c5_counterexample :
    subB ∈ [subA, subB] ∧
    subPfx subB ≠ some (extractParen "A (aabbccddeeff)") ∧
    subPfx subA = some (extractParen "A (aabbccddeeff)") ∧
    subB ∉ removeRepeaterStep [subA, subB] "A (aabbccddeeff)" := by
  decide

/-- C10: a stored record whose `pubkey_prefix` is missing or empty is
never removed by the remove-repeater operation: for every removal
selection, the sublist of such records (with order and multiplicity) is
exactly the same before and after, and each such record stays a member. -/
theorem c10_blank_records_survive (subs : List Subscription) (selected : String) :
    (removeRepeaterStep subs selected).filter blankPfx = subs.filter blankPfx ∧
    ∀ r ∈ subs, blankPfx r = true → r ∈ removeRepeaterStep subs selected := by
  constructor
  · rw [removeRepeaterStep, removeSubs, List.filter_filter]
    refine List.filter_congr ?_
    intro r _
    cases hb : blankPfx r with
    | false => simp
    | true => simp [blankPfx_keepOnRemove (extractParen selected) r hb]
  · intro r hr hb
    rw [removeRepeaterStep, removeSubs, List.mem_filter]
    exact ⟨hr, blankPfx_keepOnRemove (extractParen selected) r hb⟩

/-- Witness for C10 on a list holding a prefix-less record, a record
with an empty prefix, and a removable one. -/
theorem c10_witness :
    (removeRepeaterStep [subNoPfx, { name := "E", pubkey_prefix := some "" }, subA]
        "A (aabbccddeeff)").filter blankPfx =
      ([subNoPfx, { name := "E", pubkey_prefix := some "" }, subA] :
        List Subscription).filter blankPfx :=
  (c10_blank_records_survive [subNoPfx, { name := "E", pubkey_prefix := some "" }, subA]
    "A (aabbccddeeff)").1

/-- C8: both subscription-list operations preserve prefix uniqueness: if
no two records of the list share a `pubkey_prefix` value beforehand, the
list produced by `async_step_add_repeater` (whatever the environment
does) and the list produced by the remove operation (whatever the
selection) both still have pairwise-distinct `pubkey_prefix` values. -/
theorem c8_uniqueness_preserved (env : MeshEnv) (subs : List Subscription)
    (selected password : String) (ui : Nat) (selected2 : String)
    (h : uniquePrefixes subs) :
    uniquePrefixes (addRepeaterStep env subs selected password ui).subs ∧
    uniquePrefixes (removeRepeaterStep subs selected2) := by
  constructor
  · by_cases hmem : some (extractParen selected) ∈ subs.map subPfx
    · simpa [addRepeaterStep, hmem] using h
    · cases hc : env.get_contact_by_key_prefix (extractParen selected) with
      | none => simpa [addRepeaterStep, hmem, hc] using h
      | some contact =>
        by_cases hs : (env.send_login contact password).type = EventType.ERROR
        · simpa [addRepeaterStep, hmem, hc, hs] using h
        · cases hw : env.wait_for_event EventType.LOGIN_SUCCESS none 10 with
          | none => simpa [addRepeaterStep, hmem, hc, hs, hw] using h
          | some result =>
            by_cases hr : result.type = EventType.ERROR
            · simpa [addRepeaterStep, hmem, hc, hs, hw, hr] using h
            · simp [addRepeaterStep, hmem, hc, hs, hw, hr, uniquePrefixes,
                List.nodup_append, subPfx, h]
  · have hsub : List.Sublist ((removeRepeaterStep subs selected2).map subPfx)
        (subs.map subPfx) :=
      List.Sublist.map subPfx (List.filter_sublist subs)
    exact List.Nodup.sublist hsub h

/-- Witness for C8 starting from a concrete two-record unique list. -/
theorem c8_witness :
    uniquePrefixes (addRepeaterStep envNone [subA, subNoPfx] "R (abc)" "pw" 60).subs ∧
    uniquePrefixes (removeRepeaterStep [subA, subNoPfx] "A (aabbccddeeff)") :=
  c8_uniqueness_preserved envNone [subA, subNoPfx] "R (abc)" "pw" 60 "A (aabbccddeeff)"
    (by decide)

/-- C6 (evidence for the code bug): when the transport-level connect
succeeds and the startup/identity request returns an `ERROR`-kind
response, `validate_common` does fail with a connection error
(`CannotConnect`), but its action trace contains no `disconnect` — the
transport handle is not released on this path (the source only calls
`api.disconnect()` after a successful node-info probe). -/
theorem c6_error_response_no_disconnect :
    (validate_common { connect := ConnectOutcome.ok,
                       appstart := { type := EventType.ERROR, payload := [] } }).res =
      ValidateRes.cannotConnect "Failed to connect: Failed to get node info" ∧
    VAction.disconnect ∉
      (validate_common { connect := ConnectOutcome.ok,
                         appstart := { type := EventType.ERROR, payload := [] } }).actions := by
  decide

/-- C7: against the spec-modelled bounded identity await, a node that
never produces an identity (`SELF_INFO`) response makes
`validate_common` terminate with a connection failure for every timeout
bound, rather than succeed or wait forever. -/
theorem c7_identity_await_bounded (stream : List TimedEvent) (T : Nat)
    (h : ∀ te ∈ stream, te.ev.type ≠ EventType.SELF_INFO) :
    (validate_commonOnStream ConnectOutcome.ok stream T).res =
      ValidateRes.cannotConnect "Failed to connect: Failed to get node info" := by
  have hfind : awaitEvent stream (fun e => e.type == EventType.SELF_INFO) T = none := by
    unfold awaitEvent
    have : stream.find? (fun te => decide (te.time < T) && (te.ev.type == EventType.SELF_INFO))
        = none := by
      rw [List.find?_eq_none]
      intro te hte
      simp only [Bool.and_eq_true, beq_iff_eq, decide_eq_true_eq, not_and]
      intro _
      exact h te hte
    rw [this]
    rfl
  simp [validate_commonOnStream, validate_common, send_appstartModelled, hfind]

/-- Witness for C7 on a concrete stream carrying only an error event. -/
theorem c7_witness :
    (validate_commonOnStream ConnectOutcome.ok [{ time := 0, ev := evERR }] 5).res =
      ValidateRes.cannotConnect "Failed to connect: Failed to get node info" :=
  c7_identity_await_bounded [{ time := 0, ev := evERR }] 5 (by decide)

/-- C4 (amended): once login has succeeded, a subscription record is
always created (list grows by one) with `enabled = true`; its
`firmware_version` is `"Unknown"` whenever the awaited contact message
times out or yields an `ERROR`-kind event — regardless of what the
version-query send returned — and it is set to the message's text
exactly when a `CONTACT_MSG_RECV` event arrives. -/
theorem c4_version_probe_nonfatal (env : MeshEnv) (subs : List Subscription)
    (selected password : String) (ui : Nat) (contact : Contact) (result : Event)
    (msg : Option Event)
    (hfresh : some (extractParen selected) ∉ subs.map subPfx)
    (hc : env.get_contact_by_key_prefix (extractParen selected) = some contact)
    (hsend : (env.send_login contact password).type ≠ EventType.ERROR)
    (hwait : env.wait_for_event EventType.LOGIN_SUCCESS none 10 = some result)
    (hres : result.type ≠ EventType.ERROR)
    (hmsg : env.wait_for_event EventType.CONTACT_MSG_RECV
        (some [("pubkey_prefix", pyTake contact.public_key 12)]) 15 = msg) :
    ((addRepeaterStep env subs selected password ui).subs).length = subs.length + 1 ∧
    ((addRepeaterStep env subs selected password ui).subs).getLast?.map
        (fun s => s.enabled) = some true ∧
    ((msg = none ∨ ∃ e, msg = some e ∧ e.type = EventType.ERROR) →
      ((addRepeaterStep env subs selected password ui).subs).getLast?.map
        (fun s => s.firmware_version) = some (some "Unknown")) ∧
    (∀ e, msg = some e → e.type = EventType.CONTACT_MSG_RECV →
      ((addRepeaterStep env subs selected password ui).subs).getLast?.map
        (fun s => s.firmware_version) = some (payloadGet e.payload "text")) := by
  rcases msg with _ | e
  · simp [addRepeaterStep, hfresh, hc, hsend, hwait, hres, hmsg,
      List.getLast?_concat]
  · by_cases he : e.type = EventType.ERROR
    · simp [addRepeaterStep, hfresh, hc, hsend, hwait, hres, hmsg, he,
        List.getLast?_concat]
    · by_cases hcm : e.type = EventType.CONTACT_MSG_RECV
      · simp [addRepeaterStep, hfresh, hc, hsend, hwait, hres, hmsg, he, hcm,
          List.getLast?_concat]
      · simp [addRepeaterStep, hfresh, hc, hsend, hwait, hres, hmsg, he, hcm,
          List.getLast?_concat]

/-- Witness for C4: login succeeds and the version-probe wait times out;
the record is still created, enabled, with `"Unknown"` version. -/
theorem c4_witness :
    ((addRepeaterStep envVerTimeout [] "Hilltop (101112131415)" "secret" 60).subs).length =
      List.length ([] : List Subscription) + 1 ∧
    ((addRepeaterStep envVerTimeout [] "Hilltop (101112131415)" "secret" 60).subs).getLast?.map
        (fun s => s.enabled) = some true ∧
    (((none : Option Event) = none ∨ ∃ e, (none : Option Event) = some e ∧
        e.type = EventType.ERROR) →
      ((addRepeaterStep envVerTimeout [] "Hilltop (101112131415)" "secret" 60).subs).getLast?.map
        (fun s => s.firmware_version) = some (some "Unknown")) ∧
    (∀ e, (none : Option Event) = some e → e.type = EventType.CONTACT_MSG_RECV →
      ((addRepeaterStep envVerTimeout [] "Hilltop (101112131415)" "secret" 60).subs).getLast?.map
        (fun s => s.firmware_version) = some (payloadGet e.payload "text")) :=
  c4_version_probe_nonfatal envVerTimeout [] "Hilltop (101112131415)" "secret" 60
    contactW evLoginOk none (by decide) rfl (by decide) (by decide) (by decide) (by decide)

/-- C4 counterexample to the claim as stated: the version-query send
returns an `ERROR`-kind result (a probe failure per the claim), yet the
created record's `firmware_version` is the text of the contact message
that still arrived, not `"Unknown"` — the send result is never branched
on. -/
theorem c4_counterexample :
    (envC4.send_cmd contactW "ver").type = EventType.ERROR ∧
    ((addRepeaterStep envC4 [] "Hilltop (101112131415)" "secret" 60).subs).getLast?.map
        (fun s => s.firmware_version) = some (some "v9.9") ∧
    some (some "v9.9") ≠ some (some ("Unknown" : String)) := by
  decide

/-- C3 (amended): the key prefix is the first 12 *characters* of the
hex-encoded public key — i.e. the hex encoding of the first 6 bytes,
not of the first 12 bytes — and that same 12-character value is what is
used for identification (`_get_repeater_contacts`), for the
version-message event filter, and as the `pubkey_prefix` stored in the
created subscription record. -/
theorem c3_key_pfx_is_six_bytes (k : List Nat) (nm : String)
    (env : MeshEnv) (subs : List Subscription) (selected password : String) (ui : Nat)
    (contact : Contact) (result : Event)
    (hnm : nm ≠ "") (hk : k ≠ [])
    (hfresh : some (extractParen selected) ∉ subs.map subPfx)
    (hc : env.get_contact_by_key_prefix (extractParen selected) = some contact)
    (hkey : contact.public_key = hexEncode k)
    (hsend : (env.send_login contact password).type ≠ EventType.ERROR)
    (hwait : env.wait_for_event EventType.LOGIN_SUCCESS none 10 = some result)
    (hres : result.type ≠ EventType.ERROR)
    (hsel : extractParen selected = codeKeyPfx (hexEncode k)) :
    codeKeyPfx (hexEncode k) = hexEncode (k.take 6) ∧
    getRepeaterContacts
        [{ adv_name := nm, public_key := hexEncode k, type := some NodeType.REPEATER }] =
      [(hexEncode (k.take 6), nm)] ∧
    Action.waitFor EventType.CONTACT_MSG_RECV
        (some [("pubkey_prefix", hexEncode (k.take 6))]) 15 ∈
      (addRepeaterStep env subs selected password ui).trace ∧
    ((addRepeaterStep env subs selected password ui).subs).getLast?.map subPfx =
      some (some (hexEncode (k.take 6))) := by
  have h6 : k.take 6 ≠ [] := by
    cases k with
    | nil => exact absurd rfl hk
    | cons a l => simp
  have hhex : hexEncode k ≠ "" := hexEncode_ne_empty k hk
  have hpfx : pyTake (hexEncode k) 12 = hexEncode (k.take 6) := pyTake_hexEncode k
  have hpne : hexEncode (k.take 6) ≠ "" := hexEncode_ne_empty _ h6
  refine ⟨codeKeyPfx_hexEncode k, ?_, ?_, ?_⟩
  · simp [getRepeaterContacts, hnm, hhex, hpfx, hpne]
  · simp [addRepeaterStep, hfresh, hc, hsend, hwait, hres, hkey, hpfx]
  · have hstep : ((addRepeaterStep env subs selected password ui).subs).getLast?.map subPfx =
        some (some (extractParen selected)) := by
      simp [addRepeaterStep, hfresh, hc, hsend, hwait, hres, List.getLast?_concat, subPfx]
    rw [hstep, hsel, codeKeyPfx_hexEncode]

/-- Witness for C3 with the concrete 8-byte key `kW` held by
`contactW`. -/
theorem c3_witness :
    codeKeyPfx (hexEncode kW) = hexEncode (kW.take 6) ∧
    getRepeaterContacts
        [{ adv_name := "Hilltop", public_key := hexEncode kW,
           type := some NodeType.REPEATER }] =
      [(hexEncode (kW.take 6), "Hilltop")] ∧
    Action.waitFor EventType.CONTACT_MSG_RECV
        (some [("pubkey_prefix", hexEncode (kW.take 6))]) 15 ∈
      (addRepeaterStep envVerTimeout [] "Hilltop (101112131415)" "secret" 60).trace ∧
    ((addRepeaterStep envVerTimeout [] "Hilltop (101112131415)" "secret" 60).subs).getLast?.map
        subPfx = some (some (hexEncode (kW.take 6))) :=
  c3_key_pfx_is_six_bytes kW "Hilltop" envVerTimeout [] "Hilltop (101112131415)" "secret" 60
    contactW evLoginOk (by decide) (by decide) (by decide) rfl (by decide) (by decide)
    (by decide) (by decide) (by decide)

/-- C3 counterexample to the claim as stated: for a 32-byte public key,
the prefix the code uses for identification is the first 12 hex
characters (6 bytes), which differs from the hex encoding of the first
12 bytes that the claim prescribes. -/
theorem c3_counterexample :
    getRepeaterContacts
        [{ adv_name := "R", public_key := hexEncode k32,
           type := some NodeType.REPEATER }] =
      [(("101112131415" : String), "R")] ∧
    specKeyPfx k32 = "101112131415161718191a1b" ∧
    ("101112131415" : String) ≠ "101112131415161718191a1b" := by
  decide

end MeshCore
